import Mathlib

/-!
Verification of the Simulant dashboard logic, a shallow embedding of
`frontend/app/dashboard/page.tsx`: the client data model, the fallback
aggregate computation (`stats`), the severity sort of the aggregated bug
list (`sortedBugs`), the WebSocket message handler, the agent selection
state (`selectedAgents`, `toggleAgent`) and the admission checks of
`startTest` (URL scheme, non-empty persona set, quota).

Numbers that are JavaScript floats in the source are embedded as exact
rationals; `Math.round` becomes rounding half toward positive infinity.
-/

namespace Simulant

/-- A bug reported by an agent (TS interface `Bug`). -/
structure Bug where
  title : String
  severity : String
  description : String
  impact : Option String := none
  recommendation : Option String := none
  found_by : Option String := none
deriving DecidableEq

/-- A streamed progress update (TS interface `Update`). -/
structure Update where
  type : String
  persona : Option String := none
  thought : Option String := none
  phase : Option String := none
  bug : Option Bug := none
  bugs_count : Option Nat := none
  quality_score : Option ℚ := none
  message : Option String := none
deriving DecidableEq

/-- A per-agent result (TS interface `AgentResult`). -/
structure AgentResult where
  persona : String
  status : String
  bugs_found : List Bug
  quality_score : ℚ
  summary : String
deriving DecidableEq

/-- The aggregate record (the `summary` shape of TS interface `TestResults`,
also the shape of the dashboard-computed fallback `stats`). -/
structure Summary where
  total_bugs : Nat
  critical : Nat
  high : Nat
  medium : Nat
  low : Nat
  avg_score : ℚ
deriving DecidableEq

/-- A fetched result snapshot (TS interface `TestResults`). -/
structure TestResults where
  id : Nat
  url : String
  status : String
  summary : Option Summary := none
  results : List AgentResult := []
deriving DecidableEq

/-- The usage record (TS interface `Usage`). -/
structure Usage where
  tests_used : Int
  tests_limit : Int
  tests_remaining : Int
  beta_active : Bool := true
  beta_ends : String := ""
deriving DecidableEq

/-- An entry of the fixed agent catalog (constant `AGENTS`). -/
structure Agent where
  id : String
  name : String
  role : String
  color : String
deriving DecidableEq

/-- The fixed agent catalog rendered by the dashboard (constant `AGENTS`). -/
def AGENTS : List Agent :=
  [⟨"jake", "Jake", "Performance", "bg-orange-500"⟩,
   ⟨"grandma", "Rose", "Accessibility", "bg-pink-500"⟩,
   ⟨"alex", "Alex", "Security", "bg-red-500"⟩,
   ⟨"priya", "Priya", "QA", "bg-blue-500"⟩,
   ⟨"marcus", "Marcus", "Mobile", "bg-purple-500"⟩]

/-- JavaScript `Math.round` on exact rationals: round half toward
positive infinity. -/
def jsRound (q : ℚ) : Int := ⌊q + 1 / 2⌋

/-- JavaScript `String.prototype.startsWith`: the string begins with the
given prefix, as a character-sequence test. (Lean `String.startsWith`
has the same meaning but is defined on byte positions by well-founded
recursion, which the kernel cannot evaluate; the character-level test is
the same predicate and is executable.) -/
def strStartsWith (s p : String) : Bool := p.data.isPrefixOf s.data

/-- The fallback aggregate the dashboard computes when the fetched snapshot
carries no server-provided `summary` (the object literal in `stats`,
page.tsx lines 201-208). -/
def statsFallback (rs : List AgentResult) : Summary where
  total_bugs := rs.foldl (fun a r => a + r.bugs_found.length) 0
  critical :=
    rs.foldl (fun a r => a + (r.bugs_found.filter (fun b => b.severity == "critical")).length) 0
  high :=
    rs.foldl (fun a r => a + (r.bugs_found.filter (fun b => b.severity == "high")).length) 0
  medium :=
    rs.foldl (fun a r => a + (r.bugs_found.filter (fun b => b.severity == "medium")).length) 0
  low :=
    rs.foldl (fun a r => a + (r.bugs_found.filter (fun b => b.severity == "low")).length) 0
  avg_score :=
    if rs.length = 0 then 0
    else (jsRound (rs.foldl (fun a r => a + r.quality_score) 0 / (rs.length : ℚ) * 10) : ℚ) / 10

/-- Dashboard `stats`: the server summary when present, otherwise the
fallback aggregate (`results?.summary || (results?.results ? ... : null)`). -/
def statsOf (r : TestResults) : Summary :=
  match r.summary with
  | some s => s
  | none => statsFallback r.results

/-- The numeric severity order used by the `sortedBugs` comparator
(`order[severity] ?? 4`). -/
def severityRank (s : String) : Nat :=
  if s = "critical" then 0
  else if s = "high" then 1
  else if s = "medium" then 2
  else if s = "low" then 3
  else 4

/-- `allBugs`: every bug of every per-agent result, tagged with its agent
persona, in discovery order (`flatMap` over `results`). -/
def allBugs (r : TestResults) : List (Bug × String) :=
  r.results.flatMap (fun ar => ar.bugs_found.map (fun b => (b, ar.persona)))

/-- The order the `sortedBugs` comparator induces on tagged bugs:
comparison of severity ranks. -/
def bugLE (a b : Bug × String) : Prop :=
  severityRank a.1.severity ≤ severityRank b.1.severity

instance : DecidableRel bugLE := fun _ _ => Nat.decLe _ _

/-- `sortedBugs`: `allBugs` sorted by severity rank with a stable sort
(JavaScript `Array.prototype.sort` is stable; insertion sort by the same
key is the same function). -/
def sortedBugs (r : TestResults) : List (Bug × String) :=
  List.insertionSort bugLE (allBugs r)

/-- `toggleAgent` state update: remove the id when selected
(`prev.filter(p => p !== id)`), otherwise append it (`[...prev, id]`). -/
def toggleAgent (i : String) (prev : List String) : List String :=
  if i ∈ prev then prev.filter (fun p => p != i) else prev ++ [i]

/-- The catalog ids, as produced by the All button
(`AGENTS.map(a => a.id)`). -/
def agentCatalogIds : List String := AGENTS.map (fun a => a.id)

/-- Invariant of the `selectedAgents` state: duplicate-free and drawn from
the fixed catalog. -/
def selectionInvariant (l : List String) : Prop :=
  l.Nodup ∧ ∀ x ∈ l, x ∈ agentCatalogIds

instance (l : List String) : Decidable (selectionInvariant l) :=
  inferInstanceAs (Decidable (_ ∧ _))

/-- The body of the POST to `/test/start`. -/
structure StartRequest where
  url : String
  personas : List String
  user_id : String
deriving DecidableEq

/-- The dashboard state touched by `startTest` and the WebSocket handler. -/
structure DashState where
  isRunning : Bool := false
  isCancelling : Bool := false
  testId : Option Nat := none
  updates : List Update := []
  results : Option TestResults := none
  error : String := ""
  activeTab : String := "overview"
  usage : Option Usage := none
deriving DecidableEq

/-- True when a usage record is loaded and exhausted
(`usage && usage.tests_remaining <= 0`). -/
def quotaExhausted : Option Usage → Bool
  | none => false
  | some u => u.tests_remaining ≤ 0

/-- `startTest` up to the point the start request would be issued: the
admission guards in source order, the state fields set synchronously
before the fetch, and the request payload (`none` when no network call is
made). The empty `error` string means no error banner is rendered. -/
def startTest (st : DashState) (url : String) (selectedAgents : List String)
    (userId : String) : DashState × Option StartRequest :=
  if url = "" ∨ selectedAgents = [] then (st, none)
  else if ¬ (strStartsWith url "http://" ∨ strStartsWith url "https://") then
    ({ st with error := "URL must start with http:// or https://" }, none)
  else if quotaExhausted st.usage then
    ({ st with error := "You\x27ve used all your free tests. Paid plans coming soon!" }, none)
  else
    ({ st with
        isRunning := true
        isCancelling := false
        updates := []
        results := none
        error := ""
        activeTab := "overview" },
     some ⟨url, selectedAgents, userId⟩)

/-- The `disabled` condition of the Start Test button (page.tsx line 291). -/
def startButtonDisabled (url : String) (selectedAgents : List String)
    (usage : Option Usage) : Bool :=
  url == "" || selectedAgents.isEmpty || quotaExhausted usage

/-- The transport control frame types the WebSocket handler drops. -/
def controlFrameTypes : List String := ["keepalive", "pong", "connected"]

/-- The `ws.onmessage` handler: drops control frames, appends semantic
updates to the feed, reacts to the terminal and cancelling events; the
returned Bool reports whether `fetchResults` is triggered. -/
def handleMessage (st : DashState) (u : Update) : DashState × Bool :=
  if u.type ∈ controlFrameTypes then (st, false)
  else
    let st1 := { st with updates := st.updates ++ [u] }
    let st2 :=
      if u.type = "test_completed" then { st1 with isRunning := false, isCancelling := false }
      else st1
    let st3 :=
      if u.type = "test_cancelling" then { st2 with isCancelling := true }
      else st2
    (st3, u.type == "test_completed")

/-- Whether the stopped-early notice banner is rendered
(`results.status === "cancelled"`, page.tsx line 345). -/
def showCancelledNotice (r : TestResults) : Bool := r.status == "cancelled"

/-- The run-related dashboard state: every `DashState` field except the
error banner text. -/
def runView (st : DashState) :
    Bool × Bool × Option Nat × List Update × Option TestResults × String × Option Usage :=
  (st.isRunning, st.isCancelling, st.testId, st.updates, st.results, st.activeTab, st.usage)

/-- Spec-side definition, following the spec words "mean quality score
rounded to one decimal": used only to compare against the code
computation. -/
def specRoundToOneDecimal (x : ℚ) : ℚ := (⌊10 * x + 1 / 2⌋ : ℚ) / 10

/-! ### Concrete demonstration values used by witnesses -/

def demoBugCrit : Bug := { title := "b1", severity := "critical", description := "d" }

def demoBugOdd : Bug := { title := "b2", severity := "cosmetic", description := "d" }

def demoBugLow : Bug := { title := "b3", severity := "low", description := "d" }

def demoResults : TestResults :=
  { id := 1, url := "https://example.com", status := "completed",
    summary := none,
    results :=
      [{ persona := "alex", status := "completed",
         bugs_found := [demoBugLow, demoBugCrit], quality_score := 7, summary := "s" },
       { persona := "priya", status := "completed",
         bugs_found := [demoBugOdd], quality_score := 8, summary := "s" }] }

def usageZero : Usage := { tests_used := 5, tests_limit := 5, tests_remaining := 0 }

def stQuota : DashState := { usage := some usageZero }

def demoKeepalive : Update := { type := "keepalive" }

def demoBugEvent : Update := { type := "bug_found", bug := some demoBugCrit }

/-! ### Helper lemmas -/

theorem foldl_add_eq {α M : Type*} [AddCommMonoid M] (f : α → M) :
    ∀ (l : List α) (n : M), l.foldl (fun a x => a + f x) n = n + (l.map f).sum
  | [], n => by simp
  | x :: xs, n => by
    simp only [List.foldl_cons, foldl_add_eq f xs (n + f x), List.map_cons, List.sum_cons]
    rw [add_assoc]

/-! ### Claims -/

/-- Claim C2: for every result snapshot with no server-provided summary,
the fallback aggregate has `total_bugs` equal to the sum over all
per-agent results of the length of their `bugs_found` list. -/
theorem C2_total_bugs (r : TestResults) (h : r.summary = none) :
    (statsOf r).total_bugs = (r.results.map (fun ar => ar.bugs_found.length)).sum := by
  simp [statsOf, h, statsFallback, foldl_add_eq]

theorem C2_total_bugs_witness :
    demoResults.summary = none ∧
      (statsOf demoResults).total_bugs =
        (demoResults.results.map (fun ar => ar.bugs_found.length)).sum :=
  ⟨rfl, C2_total_bugs demoResults rfl⟩

/-- Claim C6: for every result snapshot with a non-empty per-agent result
list and no server-provided summary, the fallback `avg_score` equals the
arithmetic mean of the agent quality scores rounded to one decimal
place. -/
theorem C6_avg_score (r : TestResults) (h : r.summary = none)
    (h2 : r.results ≠ []) :
    (statsOf r).avg_score =
      specRoundToOneDecimal
        ((r.results.map (fun ar => ar.quality_score)).sum / (r.results.length : ℚ)) := by
  have hlen : r.results.length ≠ 0 := by simpa using h2
  simp only [statsOf, h, statsFallback, specRoundToOneDecimal, jsRound, foldl_add_eq,
    zero_add, if_neg hlen]
  rw [mul_comm]

theorem C6_avg_score_witness :
    demoResults.summary = none ∧ demoResults.results ≠ [] ∧
      (statsOf demoResults).avg_score =
        specRoundToOneDecimal
          ((demoResults.results.map (fun ar => ar.quality_score)).sum /
            (demoResults.results.length : ℚ)) :=
  ⟨rfl, by simp [demoResults], C6_avg_score demoResults rfl (by simp [demoResults])⟩

/-- Claim C7: a snapshot whose status is `cancelled` is not treated as an
error: the dashboard computes exactly the same aggregate stats as for a
completed run with the same per-agent results, and the only difference in
rendering is the informational stopped-early notice. -/
theorem C7_cancelled_not_error (r : TestResults) :
    statsOf { r with status := "cancelled" } = statsOf { r with status := "completed" }
    ∧ statsOf { r with status := "cancelled" } = statsOf r
    ∧ showCancelledNotice { r with status := "cancelled" } = true
    ∧ showCancelledNotice { r with status := "completed" } = false :=
  ⟨rfl, rfl, by simp [showCancelledNotice], by simp [showCancelledNotice]⟩

/-- Claim C5: the WebSocket handler returns without appending or changing
any state on `keepalive`, `pong` and `connected` frames, and every other
(semantic) message type is appended to the updates feed. -/
theorem C5_control_frames (st : DashState) (u : Update) :
    (u.type ∈ controlFrameTypes → handleMessage st u = (st, false))
    ∧ (u.type ∉ controlFrameTypes →
        (handleMessage st u).1.updates = st.updates ++ [u]) := by
  constructor
  · intro h
    simp [handleMessage, h]
  · intro h
    simp only [handleMessage, if_neg h]
    by_cases h1 : u.type = "test_completed" <;>
      by_cases h2 : u.type = "test_cancelling" <;>
        simp [h1, h2]

theorem C5_control_frames_witness :
    demoKeepalive.type ∈ controlFrameTypes
    ∧ handleMessage {} demoKeepalive = ({}, false)
    ∧ demoBugEvent.type ∉ controlFrameTypes
    ∧ (handleMessage {} demoBugEvent).1.updates =
        ({} : DashState).updates ++ [demoBugEvent] :=
  ⟨by decide, (C5_control_frames {} demoKeepalive).1 (by decide), by decide,
   (C5_control_frames {} demoBugEvent).2 (by decide)⟩

/-- Claim C3 counterexample: with an empty URL (which does not start with
`http://` or `https://`) and a non-empty persona selection, `startTest`
issues no request but also sets no error message — the error string stays
empty, so no error banner is rendered, refuting the claim that an error
message is set whenever the URL lacks a scheme. -/
theorem C3_counterexample :
    ¬ (strStartsWith "" "http://" ∨ strStartsWith "" "https://")
    ∧ (startTest {} "" ["priya"] "user").2 = none
    ∧ (startTest {} "" ["priya"] "user").1.error = "" := by
  refine ⟨by decide, ?_, ?_⟩ <;> rfl

/-- Claim C3 (amended): `startTest` rejects invalid admission input before
any network call: with an empty persona set, or a URL that does not start
with `http://` or `https://`, no request is issued and no run state
changes; when additionally the URL and the persona set are non-empty, the
URL-scheme error message is set; when the URL or the persona set is empty
the state is returned entirely unchanged (no error message). -/
theorem C3_admission_guards (st : DashState) (url : String)
    (agents : List String) (userId : String)
    (h : agents = [] ∨ ¬ (strStartsWith url "http://" ∨ strStartsWith url "https://")) :
    (startTest st url agents userId).2 = none
    ∧ runView (startTest st url agents userId).1 = runView st
    ∧ (url ≠ "" → agents ≠ [] →
        (startTest st url agents userId).1.error = "URL must start with http:// or https://")
    ∧ (url = "" ∨ agents = [] → (startTest st url agents userId).1 = st) := by
  by_cases hu : url = ""
  · simp [startTest, hu]
  · by_cases ha : agents = []
    · simp [startTest, hu, ha]
    · have hs : ¬ (strStartsWith url "http://" ∨ strStartsWith url "https://") :=
        h.resolve_left ha
      simp [startTest, hu, ha, hs, runView]

theorem C3_admission_guards_witness :
    ((["priya"] : List String) = [] ∨
        ¬ (strStartsWith "ftp://x.com" "http://" ∨ strStartsWith "ftp://x.com" "https://"))
    ∧ (startTest {} "ftp://x.com" ["priya"] "user").2 = none
    ∧ (startTest {} "ftp://x.com" ["priya"] "user").1.error =
        "URL must start with http:// or https://" :=
  ⟨Or.inr (by decide),
   (C3_admission_guards {} "ftp://x.com" ["priya"] "user" (Or.inr (by decide))).1,
   (C3_admission_guards {} "ftp://x.com" ["priya"] "user"
      (Or.inr (by decide))).2.2.1 (by decide) (by decide)⟩

/-- Claim C4 counterexample: with a loaded usage record whose
`tests_remaining` is 0 but an empty URL, `startTest` returns at the first
guard: no request is issued, yet no error message is set either (the
error string stays empty), refuting the claim that quota exhaustion
always sets an error message. -/
theorem C4_counterexample :
    stQuota.usage = some usageZero ∧ usageZero.tests_remaining ≤ 0
    ∧ (startTest stQuota "" ["priya"] "user").2 = none
    ∧ (startTest stQuota "" ["priya"] "user").1.error = "" := by
  refine ⟨rfl, by decide, ?_, ?_⟩ <;> rfl

/-- Claim C4 (amended): whenever the displayed usage record has
`tests_remaining` at most 0, `startTest` issues no start request and
changes no run state (in particular the usage counter is untouched); it
sets an error message provided the URL and the persona selection are
non-empty; and the Start Test button is disabled in this state. -/
theorem C4_quota_denial (st : DashState) (url : String) (agents : List String)
    (userId : String) (u : Usage) (hu : st.usage = some u)
    (h : u.tests_remaining ≤ 0) :
    (startTest st url agents userId).2 = none
    ∧ runView (startTest st url agents userId).1 = runView st
    ∧ (url ≠ "" → agents ≠ [] → (startTest st url agents userId).1.error ≠ "")
    ∧ startButtonDisabled url agents st.usage = true := by
  have hq : quotaExhausted st.usage = true := by
    simp [quotaExhausted, hu, h]
  refine ⟨?_, ?_, ?_, ?_⟩
  · by_cases hul : url = "" ∨ agents = []
    · simp [startTest, hul]
    · by_cases hs : strStartsWith url "http://" ∨ strStartsWith url "https://" <;>
        simp [startTest, hul, hs, hq]
  · by_cases hul : url = "" ∨ agents = []
    · simp [startTest, hul]
    · by_cases hs : strStartsWith url "http://" ∨ strStartsWith url "https://" <;>
        simp [startTest, hul, hs, hq, runView]
  · intro hune hane
    have hul : ¬ (url = "" ∨ agents = []) := by simp [hune, hane]
    by_cases hs : strStartsWith url "http://" ∨ strStartsWith url "https://" <;>
      simp [startTest, hul, hs, hq]
  · simp [startButtonDisabled, hq]

theorem C4_quota_denial_witness :
    stQuota.usage = some usageZero ∧ usageZero.tests_remaining ≤ 0
    ∧ (startTest stQuota "https://example.com" ["priya"] "user").2 = none
    ∧ (startTest stQuota "https://example.com" ["priya"] "user").1.error ≠ ""
    ∧ startButtonDisabled "https://example.com" ["priya"] stQuota.usage = true :=
  ⟨rfl, by decide,
   (C4_quota_denial stQuota "https://example.com" ["priya"] "user" usageZero rfl
      (by decide)).1,
   (C4_quota_denial stQuota "https://example.com" ["priya"] "user" usageZero rfl
      (by decide)).2.2.1 (by decide) (by decide),
   (C4_quota_denial stQuota "https://example.com" ["priya"] "user" usageZero rfl
      (by decide)).2.2.2⟩

/-- Claim C8: the `selectedAgents` invariant — duplicate-free, every
element a catalog id — holds for the initial state, is preserved by every
`toggleAgent` call made from the UI (which only passes catalog ids), and
the All button sets the selection to exactly the catalog. -/
theorem C8_selection_invariant :
    selectionInvariant ["priya"]
    ∧ (∀ i l, i ∈ agentCatalogIds → selectionInvariant l →
        selectionInvariant (toggleAgent i l))
    ∧ selectionInvariant agentCatalogIds
    ∧ agentCatalogIds = ["jake", "grandma", "alex", "priya", "marcus"] := by
  refine ⟨by decide, ?_, by decide, by decide⟩
  intro i l hi hl
  unfold toggleAgent
  by_cases hmem : i ∈ l
  · rw [if_pos hmem]
    exact ⟨hl.1.filter _, fun x hx => hl.2 x (List.mem_of_mem_filter hx)⟩
  · rw [if_neg hmem]
    constructor
    · refine List.Nodup.append hl.1 (List.nodup_singleton i) ?_
      intro a ha hb
      rw [List.mem_singleton] at hb
      exact hmem (hb ▸ ha)
    · intro x hx
      rcases List.mem_append.mp hx with h | h
      · exact hl.2 x h
      · rw [List.mem_singleton] at h
        exact h ▸ hi

theorem C8_selection_invariant_witness :
    "jake" ∈ agentCatalogIds ∧ selectionInvariant ["priya"]
    ∧ selectionInvariant (toggleAgent "jake" ["priya"]) :=
  ⟨by decide, C8_selection_invariant.1,
   C8_selection_invariant.2.1 "jake" ["priya"] (by decide) (by decide)⟩

/-- Claim C10 counterexample: toggling `jake` twice on the duplicate-free
selection `[jake, priya]` yields `[priya, jake]`, not the original list —
removal filters the id out anywhere, re-adding appends at the end, so the
double toggle is not the identity. -/
theorem C10_counterexample :
    (["jake", "priya"] : List String).Nodup
    ∧ toggleAgent "jake" (toggleAgent "jake" ["jake", "priya"]) ≠ ["jake", "priya"] := by
  decide

/-- Claim C10 (amended): on a duplicate-free selection, applying the
`toggleAgent` update twice with the same id returns a permutation of the
original selection (the same ids, in possibly different positions); in
particular, when the id was not selected the double toggle returns the
original list itself. -/
theorem C10_toggle_twice (a : String) (l : List String) (h : l.Nodup) :
    (toggleAgent a (toggleAgent a l)).Perm l
    ∧ (a ∉ l → toggleAgent a (toggleAgent a l) = l) := by
  by_cases hmem : a ∈ l
  · refine ⟨?_, fun h' => absurd hmem h'⟩
    have h1 : toggleAgent a l = l.filter (fun p => p != a) := if_pos hmem
    have hnot : a ∉ l.filter (fun p => p != a) := by simp
    have h2 : toggleAgent a (l.filter (fun p => p != a)) =
        l.filter (fun p => p != a) ++ [a] := if_neg hnot
    rw [h1, h2]
    have h3 : l.filter (fun p => p != a) = l.erase a :=
      (List.Nodup.erase_eq_filter h a).symm
    rw [h3]
    exact (List.perm_append_singleton a _).trans (List.perm_cons_erase hmem).symm
  · have h1 : toggleAgent a l = l ++ [a] := if_neg hmem
    have h2 : toggleAgent a (l ++ [a]) = (l ++ [a]).filter (fun p => p != a) :=
      if_pos (by simp)
    have h3 : (l ++ [a]).filter (fun p => p != a) = l := by
      rw [List.filter_append]
      have hl : l.filter (fun p => p != a) = l :=
        List.filter_eq_self.mpr fun b hb => by
          simpa using ne_of_mem_of_not_mem hb hmem
      simp [hl]
    rw [h1, h2, h3]
    exact ⟨List.Perm.refl l, fun _ => rfl⟩

theorem C10_toggle_twice_witness :
    (["jake", "priya"] : List String).Nodup
    ∧ (toggleAgent "jake" (toggleAgent "jake" ["jake", "priya"])).Perm ["jake", "priya"]
    ∧ ("marcus" ∉ (["jake", "priya"] : List String) →
        toggleAgent "marcus" (toggleAgent "marcus" ["jake", "priya"]) = ["jake", "priya"]) :=
  ⟨by decide, (C10_toggle_twice "jake" ["jake", "priya"] (by decide)).1,
   (C10_toggle_twice "marcus" ["jake", "priya"] (by decide)).2⟩

/-! ### Counting lemmas for the severity buckets -/

/-- The four enumerated severity values counted by the per-severity
buckets. -/
def enumSeverities : List String := ["critical", "high", "medium", "low"]

theorem countP_flatMap {α β : Type*} (f : α → List β) (p : β → Bool) :
    ∀ rs : List α, (rs.flatMap f).countP p = (rs.map (fun r => (f r).countP p)).sum
  | [] => by simp
  | r :: rs => by
    simp [List.flatMap_cons, List.countP_append, countP_flatMap f p rs]

theorem statsFallback_bucket (rs : List AgentResult) (s : String) :
    rs.foldl (fun a r => a + (r.bugs_found.filter (fun b => b.severity == s)).length) 0 =
      (rs.flatMap (fun ar => ar.bugs_found)).countP (fun b => b.severity == s) := by
  rw [foldl_add_eq, countP_flatMap]
  simp [List.countP_eq_length_filter]

theorem statsFallback_total (rs : List AgentResult) :
    rs.foldl (fun a r => a + r.bugs_found.length) 0 =
      (rs.flatMap (fun ar => ar.bugs_found)).length := by
  rw [foldl_add_eq, List.length_flatMap]
  simp [Function.comp_def]

theorem countP_four_severities (L : List Bug) :
    L.countP (fun b => b.severity == "critical") + L.countP (fun b => b.severity == "high")
      + L.countP (fun b => b.severity == "medium") + L.countP (fun b => b.severity == "low")
      = L.countP (fun b => decide (b.severity ∈ enumSeverities)) := by
  induction L with
  | nil => simp
  | cons b l ih =>
    simp only [List.countP_cons]
    by_cases h1 : b.severity = "critical" <;> by_cases h2 : b.severity = "high" <;>
      by_cases h3 : b.severity = "medium" <;> by_cases h4 : b.severity = "low" <;>
        simp_all [enumSeverities] <;> omega

/-- Claim C9: in the fallback aggregate, the four per-severity buckets sum
to at most `total_bugs`, with equality exactly when every bug severity is
one of the four enumerated values; a bug with any other severity string
is counted in `total_bugs` but in none of the four buckets. -/
theorem C9_severity_buckets (r : TestResults) (h : r.summary = none) :
    (statsOf r).critical + (statsOf r).high + (statsOf r).medium + (statsOf r).low
        ≤ (statsOf r).total_bugs
    ∧ ((statsOf r).critical + (statsOf r).high + (statsOf r).medium + (statsOf r).low
          = (statsOf r).total_bugs ↔
        ∀ ar ∈ r.results, ∀ b ∈ ar.bugs_found, b.severity ∈ enumSeverities) := by
  have hst : statsOf r = statsFallback r.results := by simp [statsOf, h]
  have hsum : (statsOf r).critical + (statsOf r).high + (statsOf r).medium + (statsOf r).low
      = (r.results.flatMap (fun ar => ar.bugs_found)).countP
          (fun b => decide (b.severity ∈ enumSeverities)) := by
    rw [hst]
    show (statsFallback r.results).critical + _ + _ + _ = _
    simp only [statsFallback, statsFallback_bucket]
    exact countP_four_severities _
  have htot : (statsOf r).total_bugs =
      (r.results.flatMap (fun ar => ar.bugs_found)).length := by
    rw [hst]
    exact statsFallback_total r.results
  constructor
  · rw [hsum, htot]
    exact List.countP_le_length _
  · rw [hsum, htot, List.countP_eq_length]
    constructor
    · intro hall ar har b hb
      simpa using hall b (List.mem_flatMap.mpr ⟨ar, har, hb⟩)
    · intro hall b hb
      obtain ⟨ar, har, hb'⟩ := List.mem_flatMap.mp hb
      simpa using hall ar har b hb'

theorem C9_severity_buckets_witness :
    demoResults.summary = none
    ∧ (statsOf demoResults).critical + (statsOf demoResults).high
        + (statsOf demoResults).medium + (statsOf demoResults).low
        ≤ (statsOf demoResults).total_bugs
    ∧ ¬ ∀ ar ∈ demoResults.results, ∀ b ∈ ar.bugs_found, b.severity ∈ enumSeverities :=
  ⟨rfl, (C9_severity_buckets demoResults rfl).1, by decide⟩

/-! ### Stability of the severity sort -/

theorem filter_orderedInsert (p : Bug × String → Bool)
    (hp : ∀ x y, p x = true → p y = true →
      severityRank x.1.severity = severityRank y.1.severity)
    (a : Bug × String) (l : List (Bug × String)) :
    (List.orderedInsert bugLE a l).filter p =
      if p a then a :: l.filter p else l.filter p := by
  induction l with
  | nil =>
    by_cases hpa : p a <;> simp [List.orderedInsert, hpa]
  | cons b l ih =>
    by_cases hab : bugLE a b
    · by_cases hpa : p a <;>
        simp [List.orderedInsert, hab, hpa, List.filter_cons]
    · by_cases hpa : p a
      · have hpb : p b = false := by
          by_contra hpb
          have hpb' : p b = true := by
            revert hpb
            cases p b <;> simp
          exact hab (le_of_eq (hp a b hpa hpb'))
        simp [List.orderedInsert, hab, hpa, hpb, ih, List.filter_cons]
      · by_cases hpb : p b <;>
          simp [List.orderedInsert, hab, hpa, hpb, ih, List.filter_cons]

theorem filter_insertionSort (p : Bug × String → Bool)
    (hp : ∀ x y, p x = true → p y = true →
      severityRank x.1.severity = severityRank y.1.severity)
    (l : List (Bug × String)) :
    (List.insertionSort bugLE l).filter p = l.filter p := by
  induction l with
  | nil => rfl
  | cons a l ih =>
    simp only [List.insertionSort]
    rw [filter_orderedInsert p hp a]
    by_cases hpa : p a <;> simp [hpa, ih, List.filter_cons]

instance : IsTotal (Bug × String) bugLE :=
  ⟨fun _ _ => Nat.le_total _ _⟩

instance : IsTrans (Bug × String) bugLE :=
  ⟨fun _ _ _ => Nat.le_trans⟩

/-- Claim C1: for every fetched snapshot, `sortedBugs` is a permutation of
the aggregated bug list ordered by severity rank (`critical` before
`high` before `medium` before `low`, unknown severities last), and bugs
of equal severity keep their discovery order (the sort is stable: the
sublist of any fixed severity is unchanged). -/
theorem C1_sortedBugs_sorted_stable (r : TestResults) :
    List.Pairwise (fun a b : Bug × String =>
        severityRank a.1.severity ≤ severityRank b.1.severity) (sortedBugs r)
    ∧ (sortedBugs r).Perm (allBugs r)
    ∧ ∀ s : String,
        (sortedBugs r).filter (fun e => e.1.severity == s) =
          (allBugs r).filter (fun e => e.1.severity == s) := by
  refine ⟨?_, ?_, ?_⟩
  · exact List.sorted_insertionSort bugLE (allBugs r)
  · exact List.perm_insertionSort bugLE (allBugs r)
  · intro s
    refine filter_insertionSort _ ?_ _
    intro x y hx hy
    have hx' : x.1.severity = s := by simpa using hx
    have hy' : y.1.severity = s := by simpa using hy
    rw [hx', hy']

end Simulant
